import Mathlib

/-!
Verification of the schema-relevance / SQL-generation core of the
DB-Report chat application (Python sources under `utils/` and
`app/routes/`).  Python strings are modelled as Lean `String`s with
executable helpers mirroring the `str` methods the code uses (ASCII
semantics, which covers every string the code manipulates); dynamic
dictionaries are modelled as association lists or structures with
`Option` fields where a key may be absent; Python exceptions are
modelled with `Except`/`Option` results.
-/

namespace DBChat

/-! ## Python string primitives -/

/-- Whitespace characters removed by Python `str.strip()`. -/
def isPySpace (c : Char) : Bool :=
  c = ' ' || c = '\t' || c = '\n' || c = '\r' || c = Char.ofNat 11 || c = Char.ofNat 12

/-- Python `str.strip()` (no arguments): remove leading and trailing whitespace. -/
def pyStrip (s : String) : String :=
  ⟨((s.data.dropWhile isPySpace).reverse.dropWhile isPySpace).reverse⟩

/-- Python `str.lower()` (ASCII range, which covers the code's inputs). -/
def pyLower (s : String) : String :=
  ⟨s.data.map Char.toLower⟩

/-- Python `str.startswith(p)`. -/
def startsWithStr (s p : String) : Bool :=
  p.data.isPrefixOf s.data

/-- Python `str.endswith(p)`. -/
def endsWithStr (s p : String) : Bool :=
  p.data.reverse.isPrefixOf s.data.reverse

/-- Whether `pat` occurs as a contiguous sublist of the second argument:
Python `pat in hay` for strings. -/
def subOccursL (pat : List Char) : List Char → Bool
  | [] => pat.isEmpty
  | c :: t => pat.isPrefixOf (c :: t) || subOccursL pat t

/-- Python substring test `pat in s`. -/
def containsSub (s pat : String) : Bool :=
  subOccursL pat.data s.data

/-- Python slice `s[a:-b]` (for positive `b`): drop `a` characters at the
front and `b` at the back, empty when they overlap. -/
def pySliceDrop (s : String) (a b : Nat) : String :=
  ⟨(s.data.drop a).take (s.data.length - a - b)⟩

/-- Python slice `s[:n]`. -/
def pyTakeStr (s : String) (n : Nat) : String :=
  ⟨s.data.take n⟩

/-- Python slice `s[:-1]`. -/
def dropLastChar (s : String) : String :=
  ⟨s.data.take (s.data.length - 1)⟩

/-! ## SQL generation pipeline: completion post-processing
(`utils/database_manager.py`, `generate_sql_token_optimized`, lines 551-586) -/

/-- The placeholder tokens rejected by `generate_sql_token_optimized`
(line 573), in source order. -/
def sqlPlaceholders : List String :=
  ["your_table_name", "your_column_name", "table_name", "column_name"]

/-- Line 573: `any(placeholder in sql.lower() for placeholder in [...])`. -/
def hasPlaceholder (sql : String) : Bool :=
  sqlPlaceholders.any (fun p => containsSub (pyLower sql) p)

/-- Lines 566-570: `sql = content.strip()`, then strip a Markdown code
fence: `sql[6:-3].strip()` after a ```` ```sql ```` opener, `sql[3:-3].strip()`
after a bare ```` ``` ```` opener. -/
def stripCodeFences (raw : String) : String :=
  let s := pyStrip raw
  if startsWithStr s "```sql" then pyStrip (pySliceDrop s 6 3)
  else if startsWithStr s "```" then pyStrip (pySliceDrop s 3 3)
  else s

/-- Line 580: `sql.strip().lower().startswith("select")`. -/
def startsSelect (sql : String) : Bool :=
  startsWithStr (pyLower (pyStrip sql)) "select"

/-- Lines 577/583: `sql.startswith("--ERROR")`. -/
def isErrorSentinel (sql : String) : Bool :=
  startsWithStr sql "--ERROR"

/-- Outcome of processing one completion output: the SQL returned to the
caller and the value written to the LLM result cache (`none` when
`redis_set` is not called). -/
structure SqlGenOutcome where
  result : Option String
  cacheWrite : Option String
deriving Repr, DecidableEq

/-- Lines 566-583 of `generate_sql_token_optimized`: fence-stripping,
placeholder rejection, the cache write (guarded only by the `--ERROR`
sentinel check, line 577), the SELECT-only check (line 580) and the final
return (line 583). -/
def processCompletion (raw : String) : SqlGenOutcome :=
  let sql := stripCodeFences raw
  if hasPlaceholder sql then ⟨none, none⟩
  else
    let w : Option String := if isErrorSentinel sql then none else some sql
    if !(startsSelect sql) then ⟨none, w⟩
    else ⟨if isErrorSentinel sql then none else some sql, w⟩

/-- Cache entry state after an optional `redis_set`. -/
def cacheAfterWrite (cache write : Option String) : Option String :=
  match write with
  | some w => some w
  | none => cache

/-- The cache-facing behaviour of `generate_sql_token_optimized` for a
fixed cache key: lines 553-555 return a non-empty cached string directly
(`if cached_sql:` is false for the empty string), otherwise the completion
output is post-processed.  Returns the SQL handed to the caller and the
cache entry after the call. -/
def generateSqlTokenOptimized (cache : Option String) (raw : String) :
    Option String × Option String :=
  match cache with
  | some c =>
    if c = "" then
      let o := processCompletion raw
      (o.result, cacheAfterWrite (some c) o.cacheWrite)
    else (some c, some c)
  | none =>
    let o := processCompletion raw
    (o.result, cacheAfterWrite none o.cacheWrite)

/-! ## Theorems for C1 and C2 -/

/-- C1: refuted on the code.  The cache write (line 578) precedes the
SELECT-only check (line 580), so a completion output `"DROP TABLE x"`
(placeholder-free, not the `--ERROR` sentinel) is written to the
generated-SQL cache even though the call itself returns no SQL; a second
call with the same key then returns `"DROP TABLE x"` from the cache
although it does not start with `select`. -/
theorem generated_sql_cache_poisoning :
    generateSqlTokenOptimized none "DROP TABLE x" = (none, some "DROP TABLE x") ∧
    generateSqlTokenOptimized (some "DROP TABLE x") "SELECT 1"
      = (some "DROP TABLE x", some "DROP TABLE x") ∧
    startsSelect "DROP TABLE x" = false := by
  refine ⟨?_, by decide, by decide⟩
  decide

/-- C2: for every completion output, the pipeline returns no SQL when the
fence-stripped, trimmed output contains a placeholder token or does not
start with `select` case-insensitively; `"DROP TABLE x"` is rejected,
`"Select * from t"` and `"  select 1"` are accepted, and an output
containing `your_table_name` is rejected even though it starts with
`select`. -/
theorem completion_validation :
    (∀ raw, (hasPlaceholder (stripCodeFences raw) = true ∨
        startsSelect (stripCodeFences raw) = false) →
      (processCompletion raw).result = none) ∧
    (processCompletion "DROP TABLE x").result = none ∧
    (processCompletion "Select * from t").result = some "Select * from t" ∧
    (processCompletion "  select 1").result = some "select 1" ∧
    (processCompletion "select id from your_table_name").result = none := by
  refine ⟨?_, by decide, by decide, by decide, by decide⟩
  intro raw h
  unfold processCompletion
  rcases h with h | h
  · simp [h]
  · by_cases hp : hasPlaceholder (stripCodeFences raw) <;> simp [hp, h]

/-- Witness for C2 at the concrete rejected output `"update t set a=1"`. -/
theorem completion_validation_witness :
    (hasPlaceholder (stripCodeFences "update t set a=1") = true ∨
      startsSelect (stripCodeFences "update t set a=1") = false) ∧
    (processCompletion "update t set a=1").result = none :=
  ⟨Or.inr (by decide), completion_validation.1 "update t set a=1" (Or.inr (by decide))⟩

/-! ## Domain classifier
(`utils/domain_analyzer.py`, `detect_domain_from_question`, lines 103-147,
and `_classify_domain`, lines 76-101) -/

/-- HR keyword set (lines 108-109). -/
def hrKeywords : List String :=
  ["employee", "hire", "attendance", "leave", "hr", "human", "resource",
   "staff", "personnel", "workforce", "payroll", "shift", "schedule", "department"]

/-- Inventory keyword set (lines 114-115). -/
def inventoryKeywords : List String :=
  ["product", "stock", "inventory", "sales", "purchase", "item",
   "goods", "merchandise", "supply", "order", "category", "brand"]

/-- Financial keyword set (lines 120-121). -/
def financialKeywords : List String :=
  ["account", "payment", "transaction", "financial", "money",
   "invoice", "bank", "balance", "revenue", "expense", "budget", "credit"]

/-- Reporting keyword set (lines 126-127). -/
def reportingKeywords : List String :=
  ["report", "chart", "dashboard", "analytics", "statistics",
   "summary", "overview", "trend", "graph"]

/-- Core-entity keyword set (line 133). -/
def coreEntityKeywords : List String :=
  ["user", "person", "party", "entity"]

/-- Inventory-context keyword set of the customer/supplier special case
(line 139). -/
def inventoryContextKeywords : List String :=
  ["product", "stock", "inventory", "sales", "purchase", "order", "supply"]

/-- Python `any(word in question_lower for word in kws)`. -/
def anyKeywordIn (ql : String) (kws : List String) : Bool :=
  kws.any (fun w => containsSub ql w)

/-- `detect_domain_from_question` (lines 103-147): the lowercased question
is tested against the five ordered keyword sets by substring containment,
then the customer/supplier special case, defaulting to `general`. -/
def detectDomainFromQuestion (question : String) : String :=
  let ql := pyLower question
  if anyKeywordIn ql hrKeywords then "hr"
  else if anyKeywordIn ql inventoryKeywords then "inventory"
  else if anyKeywordIn ql financialKeywords then "financial"
  else if anyKeywordIn ql reportingKeywords then "reporting"
  else if anyKeywordIn ql coreEntityKeywords then "general"
  else if anyKeywordIn ql ["customer", "supplier"] then
    (if anyKeywordIn ql inventoryContextKeywords then "inventory" else "general")
  else "general"

/-- `_classify_domain` (lines 76-101): classify a table name into a domain
by prefix and substring patterns, defaulting to `core`. -/
def classifyTableDomain (tableName : String) : String :=
  let tl := pyLower tableName
  if startsWithStr tl "hr_" ||
      anyKeywordIn tl ["employee", "attendance", "leave", "payroll", "shift"] then "hr"
  else if startsWithStr tl "inv_" ||
      anyKeywordIn tl ["product", "stock", "sales", "purchase", "inventory", "item"] then "inventory"
  else if startsWithStr tl "core_fin_" ||
      anyKeywordIn tl ["account", "transaction", "payment", "invoice", "bank"] then "financial"
  else if startsWithStr tl "report" ||
      ["reports", "charts", "dashboards", "analytics"].contains tl then "reporting"
  else "core"

/-- Every inventory-context keyword of the customer/supplier special case
is itself a member of the inventory keyword set, so it fires the earlier
inventory check whenever it occurs in the question. -/
lemma inventoryContext_subset_inventory (ql : String) :
    anyKeywordIn ql inventoryContextKeywords = true →
    anyKeywordIn ql inventoryKeywords = true := by
  intro h
  simp only [anyKeywordIn, inventoryContextKeywords, inventoryKeywords,
    List.any_eq_true] at h ⊢
  rcases h with ⟨w, hw, hc⟩
  exact ⟨w, by fin_cases hw <;> simp, hc⟩

/-- The result of `detect_domain_from_question` is always one of the five
question-domain tags. -/
lemma detectDomain_mem (q : String) :
    detectDomainFromQuestion q ∈
      ["hr", "inventory", "financial", "reporting", "general"] := by
  unfold detectDomainFromQuestion
  dsimp only
  repeat' split
  all_goals simp

/-- The result of `_classify_domain` is always one of the five
table-domain tags (`core` in place of `general`). -/
lemma classifyTableDomain_mem (t : String) :
    classifyTableDomain t ∈
      ["hr", "inventory", "financial", "reporting", "core"] := by
  unfold classifyTableDomain
  dsimp only
  repeat' split
  all_goals simp

/-! ## Theorems for C3, C4 and C10 -/

/-- C3: a question mentioning `customer`/`supplier` with no keyword of any
of the five ordered sets resolves to `inventory` when an inventory-context
word is present and to `general` otherwise; `"Show me all customers"`
resolves to `general` and `"Customers who bought products"` to
`inventory`. -/
theorem customer_supplier_disambiguation :
    (∀ q, anyKeywordIn (pyLower q) ["customer", "supplier"] = true →
      anyKeywordIn (pyLower q) hrKeywords = false →
      anyKeywordIn (pyLower q) inventoryKeywords = false →
      anyKeywordIn (pyLower q) financialKeywords = false →
      anyKeywordIn (pyLower q) reportingKeywords = false →
      anyKeywordIn (pyLower q) coreEntityKeywords = false →
      detectDomainFromQuestion q =
        (if anyKeywordIn (pyLower q) inventoryContextKeywords then "inventory"
         else "general")) ∧
    detectDomainFromQuestion "Show me all customers" = "general" ∧
    detectDomainFromQuestion "Customers who bought products" = "inventory" := by
  refine ⟨?_, by decide, by decide⟩
  intro q hcs hhr hinv hfin hrep hcore
  unfold detectDomainFromQuestion
  simp [hhr, hinv, hfin, hrep, hcore, hcs]

/-- Witness for C3 at the concrete question `"customer feedback"`. -/
theorem customer_supplier_disambiguation_witness :
    anyKeywordIn (pyLower "customer feedback") ["customer", "supplier"] = true ∧
    detectDomainFromQuestion "customer feedback" =
      (if anyKeywordIn (pyLower "customer feedback") inventoryContextKeywords
       then "inventory" else "general") :=
  ⟨by decide,
   customer_supplier_disambiguation.1 "customer feedback"
     (by decide) (by decide) (by decide) (by decide) (by decide) (by decide)⟩

/-- C4: the five keyword sets are tested in the fixed order hr, inventory,
financial, reporting, core-entity, and the first matching set determines
the result; in particular any question containing the hr keyword
`payroll` resolves to `hr` no matter which lower-priority keywords it also
contains. -/
theorem domain_priority_order :
    (∀ q, anyKeywordIn (pyLower q) hrKeywords = true →
      detectDomainFromQuestion q = "hr") ∧
    (∀ q, containsSub (pyLower q) "payroll" = true →
      detectDomainFromQuestion q = "hr") ∧
    (∀ q, anyKeywordIn (pyLower q) hrKeywords = false →
      anyKeywordIn (pyLower q) inventoryKeywords = true →
      detectDomainFromQuestion q = "inventory") ∧
    (∀ q, anyKeywordIn (pyLower q) hrKeywords = false →
      anyKeywordIn (pyLower q) inventoryKeywords = false →
      anyKeywordIn (pyLower q) financialKeywords = true →
      detectDomainFromQuestion q = "financial") ∧
    (∀ q, anyKeywordIn (pyLower q) hrKeywords = false →
      anyKeywordIn (pyLower q) inventoryKeywords = false →
      anyKeywordIn (pyLower q) financialKeywords = false →
      anyKeywordIn (pyLower q) reportingKeywords = true →
      detectDomainFromQuestion q = "reporting") ∧
    detectDomainFromQuestion "payroll by product, account and report" = "hr" := by
  refine ⟨?_, ?_, ?_, ?_, ?_, by decide⟩
  · intro q h
    unfold detectDomainFromQuestion
    simp [h]
  · intro q h
    have hhr : anyKeywordIn (pyLower q) hrKeywords = true := by
      simp only [anyKeywordIn, hrKeywords, List.any_eq_true]
      exact ⟨"payroll", by simp, h⟩
    unfold detectDomainFromQuestion
    simp [hhr]
  · intro q h1 h2
    unfold detectDomainFromQuestion
    simp [h1, h2]
  · intro q h1 h2 h3
    unfold detectDomainFromQuestion
    simp [h1, h2, h3]
  · intro q h1 h2 h3 h4
    unfold detectDomainFromQuestion
    simp [h1, h2, h3, h4]

/-- Witness for C4 at the concrete question
`"payroll by product, account and report"`. -/
theorem domain_priority_order_witness :
    anyKeywordIn (pyLower "payroll by product, account and report") hrKeywords = true ∧
    detectDomainFromQuestion "payroll by product, account and report" = "hr" :=
  ⟨by decide,
   domain_priority_order.1 "payroll by product, account and report" (by decide)⟩

/-- C10: `detect_domain_from_question` is total on the embedding and its
result is always one of `hr`, `inventory`, `financial`, `reporting`,
`general`; it never returns the `core` tag, which `_classify_domain` does
return (e.g. on `core_parties`), so the two classifiers have different
codomains on that tag. -/
theorem question_classifier_codomain :
    (∀ q, detectDomainFromQuestion q ∈
      ["hr", "inventory", "financial", "reporting", "general"]) ∧
    (∀ q, detectDomainFromQuestion q ≠ "core") ∧
    classifyTableDomain "core_parties" = "core" := by
  refine ⟨detectDomain_mem, ?_, by decide⟩
  intro q
  have h := detectDomain_mem q
  simp only [List.mem_cons, List.not_mem_nil, or_false] at h
  rcases h with h | h | h | h | h <;> simp [h]

/-- Witness for C10 at the concrete question `"show payroll"`. -/
theorem question_classifier_codomain_witness :
    detectDomainFromQuestion "show payroll" ∈
      ["hr", "inventory", "financial", "reporting", "general"] ∧
    detectDomainFromQuestion "show payroll" ≠ "core" :=
  ⟨question_classifier_codomain.1 "show payroll",
   question_classifier_codomain.2.1 "show payroll"⟩

/-! ## SQL error retry policy
(`utils/chat_processor.py`, `ChatProcessor.process_sql_error`, lines 129-140) -/

/-- Line 133: `"1054" in error_message or "no such column" in
error_message.lower()` — the "unknown column" error class. -/
def isSchemaMismatchError (errorMessage : String) : Bool :=
  containsSub errorMessage "1054" || containsSub (pyLower errorMessage) "no such column"

/-- Result of `process_sql_error` together with the number of calls made
to the two injected collaborators, counted off the call sites of the
source. -/
structure SqlErrorOutcome (α : Type) where
  sql : Option String
  df : Option α
  err : Option String
  genCalls : Nat
  execCalls : Nat
deriving Repr

/-- `process_sql_error` (lines 129-140): on an unknown-column class error
re-generate once with the error text as `error_context` and, when SQL came
back (non-empty — Python truthiness), execute it and surface its outcome;
in every other case return `(None, None, error_message)` untouched.
`gen` models `generate_sql_func(question, database, error_context=...)`
and `exec` models `execute_query_func(sql, database)` returning a rowset
and an error message. -/
def processSqlError {α : Type} (errorMessage question database : String)
    (gen : String → String → Option String → Option String)
    (query : String → String → Option α × Option String) : SqlErrorOutcome α :=
  if isSchemaMismatchError errorMessage then
    match gen question database (some errorMessage) with
    | some s =>
      if s ≠ "" then
        let r := query s database
        ⟨some s, r.1, r.2, 1, 1⟩
      else ⟨none, none, some errorMessage, 1, 0⟩
    | none => ⟨none, none, some errorMessage, 1, 0⟩
  else ⟨none, none, some errorMessage, 0, 0⟩

/-- C6: on an unknown-column class error (message containing `1054` or
`no such column`), `process_sql_error` re-invokes SQL generation exactly
once with the error text as `error_context`; when the retried execution
fails again its error is surfaced as-is; an error outside that class is
surfaced directly with no regeneration. -/
theorem sql_error_single_retry {α : Type} (msg question database : String)
    (gen : String → String → Option String → Option String)
    (query : String → String → Option α × Option String) :
    (isSchemaMismatchError msg = true →
      (processSqlError msg question database gen query).genCalls = 1 ∧
      (processSqlError msg question database gen query).execCalls ≤ 1) ∧
    (∀ s, isSchemaMismatchError msg = true →
      gen question database (some msg) = some s → s ≠ "" →
      processSqlError msg question database gen query =
        ⟨some s, (query s database).1, (query s database).2, 1, 1⟩) ∧
    (isSchemaMismatchError msg = false →
      processSqlError msg question database gen query =
        ⟨none, none, some msg, 0, 0⟩) := by
  refine ⟨?_, ?_, ?_⟩
  · intro h
    unfold processSqlError
    rw [h]
    cases hg : gen question database (some msg) with
    | none => simp
    | some s =>
      by_cases hs : s = "" <;> simp [hs]
  · intro s h hg hs
    unfold processSqlError
    rw [h, hg]
    simp [hs]
  · intro h
    unfold processSqlError
    rw [h]
    simp

/-- Witness for C6: a `1054` error retries once and surfaces the second
failure; a syntax error is surfaced directly with no retry. -/
theorem sql_error_single_retry_witness :
    (isSchemaMismatchError "(1054, Unknown column)" = true ∧
      processSqlError (α := Unit) "(1054, Unknown column)" "q" "db"
        (fun _ _ _ => some "select 2") (fun _ _ => (none, some "still broken")) =
        ⟨some "select 2", none, some "still broken", 1, 1⟩) ∧
    (isSchemaMismatchError "syntax error near select" = false ∧
      processSqlError (α := Unit) "syntax error near select" "q" "db"
        (fun _ _ _ => some "select 2") (fun _ _ => (none, some "still broken")) =
        ⟨none, none, some "syntax error near select", 0, 0⟩) :=
  ⟨⟨by decide,
    (sql_error_single_retry "(1054, Unknown column)" "q" "db"
      (fun _ _ _ => some "select 2") (fun _ _ => (none, some "still broken"))).2.1
      "select 2" (by decide) rfl (by decide)⟩,
   ⟨by decide,
    (sql_error_single_retry "syntax error near select" "q" "db"
      (fun _ _ _ => some "select 2") (fun _ _ => (none, some "still broken"))).2.2
      (by decide)⟩⟩

/-! ## Schema cache
(`utils/database_manager.py`, `get_database_schema`, lines 121-189) -/

/-- The external-cache tier as seen by `get_database_schema`: `none` when
`redis_get` returned nothing (miss, unreachable cache, or empty string),
`some none` when a stored payload failed to parse (`json.loads` raised,
line 130), `some (some s)` on a parsed hit. -/
def RedisTier (σ : Type) : Type := Option (Option σ)

/-- `get_database_schema` (lines 121-189) over an abstract schema type:
external cache first, then the in-process cache entry (with its write
timestamp, fresh while younger than `CACHE_EXPIRY_MINUTES * 60` seconds),
then live introspection (the body of the `try` at lines 143-186,
abstracted as an `Except` collaborator); every introspection failure is
caught and turned into `none` (line 187-189). -/
def getDatabaseSchema {σ : Type} (redisTier : RedisTier σ)
    (memTier : Option (σ × Nat)) (now expiryMinutes : Nat)
    (introspect : Except Unit σ) : Option σ :=
  match redisTier with
  | some (some s) => some s
  | _ =>
    let live : Option σ :=
      match introspect with
      | .ok s => some s
      | .error _ => none
    match memTier with
    | some (s, ts) => if now - ts < expiryMinutes * 60 then some s else live
    | none => live

/-- C8: whenever both cache tiers miss (or hold stale/unparseable data)
and live introspection fails, `get_database_schema` returns `None` rather
than letting the failure escape: the embedding is a total function into
`Option`, mirroring the catch-all `except` of lines 187-189. -/
theorem schema_unavailable_returns_null {σ : Type} (redisTier : RedisTier σ)
    (memTier : Option (σ × Nat)) (now expiryMinutes : Nat)
    (hredis : redisTier = none ∨ redisTier = some none)
    (hmem : ∀ s ts, memTier = some (s, ts) → ¬(now - ts < expiryMinutes * 60)) :
    getDatabaseSchema redisTier memTier now expiryMinutes (.error ()) = none := by
  unfold getDatabaseSchema
  rcases hredis with h | h <;> subst h <;>
    cases hm : memTier with
    | none => simp
    | some p =>
      cases p with
      | mk s ts => simp [hmem s ts hm]

/-- Witness for C8: empty external cache, a stale in-process entry written
at time 0 queried at time 7200 with the 60-minute TTL, and failing
introspection yield `None`. -/
theorem schema_unavailable_returns_null_witness :
    getDatabaseSchema (σ := Nat) none (some (5, 0)) 7200 60 (.error ()) = none :=
  schema_unavailable_returns_null none (some (5, 0)) 7200 60 (Or.inl rfl)
    (by intro s ts h; injection h with h1; injection h1 with hs hts; omega)

/-! ## Card formatter and card→table fallback
(`utils/response_formatter.py`, `format_card_response`, lines 200-229, and
`app/routes/chat.py`, `_process_query_result`, lines 310-336) -/

/-- A pandas cell value: the card formatter only ever stringifies values
or sums a numeric column, so numbers are modelled as integers and every
other dtype as its string form. -/
inductive PValue where
  | num (n : Int)
  | str (s : String)
deriving Repr, DecidableEq

/-- Python `str(value)`. -/
def pvalueStr : PValue → String
  | .num n => toString n
  | .str s => s

/-- One DataFrame column: its label, whether
`pd.api.types.is_numeric_dtype` holds for it, and its values (one per
row). -/
structure PColumn where
  name : String
  numeric : Bool
  values : List PValue
deriving Repr, DecidableEq

/-- A pandas DataFrame as the card formatter sees it: a row count and a
list of columns (well-formedness — each column holding `nrows` values —
is a hypothesis where needed). -/
structure PDataFrame where
  nrows : Nat
  cols : List PColumn
deriving Repr, DecidableEq

/-- pandas `df.empty`: true when either axis has length zero. -/
def PDataFrame.isEmptyDf (df : PDataFrame) : Bool :=
  df.nrows = 0 || df.cols.isEmpty

/-- `df[col].sum()` over a numeric column (non-numeric cells contribute
nothing; a well-formed numeric column has none). -/
def columnSum (c : PColumn) : Int :=
  (c.values.map (fun v => match v with | .num n => n | .str _ => 0)).sum

/-- Digit grouping of Python format `f"{x:,.2f}"` on an integral sum:
thousands separators plus two decimal places. -/
def groupDigits (l : List Char) : List Char :=
  if _h : l.length ≤ 3 then l
  else
    groupDigits (l.take (l.length - 3)) ++ (',' :: l.drop (l.length - 3))
termination_by l.length
decreasing_by
  simp only [List.length_take]
  omega

/-- Python `f"{x:,.2f}"` for an integer-valued sum. -/
def fmtMetric (n : Int) : String :=
  let digits := (toString n.natAbs).data
  (if n < 0 then "-" else "") ++ ⟨groupDigits digits⟩ ++ ".00"

/-- One metric card: title, rendered value, and the always-`None` change
field. -/
structure MetricCard where
  title : String
  value : String
  change : Option String
deriving Repr, DecidableEq

/-- `format_card_response` (lines 200-229): `None` on an empty frame, a
single `Result` card for a 1×1 frame, otherwise one card per column —
numeric columns formatted as their sum, other columns as the stringified
first value — capped at 4 cards. -/
def formatCardResponse (df : PDataFrame) : Option (List MetricCard) :=
  if df.isEmptyDf then none
  else if df.nrows = 1 && df.cols.length = 1 then
    some [⟨"Result", pvalueStr ((df.cols.headD ⟨"", false, []⟩).values.headD (.str "")), none⟩]
  else
    some ((df.cols.map (fun c =>
      if c.numeric then (⟨c.name, fmtMetric (columnSum c), none⟩ : MetricCard)
      else ⟨c.name, pvalueStr (c.values.headD (.str "")), none⟩)).take 4)

/-- The card branch of `_process_query_result` (chat.py lines 311-336):
`content = format_card_response(df)`; a truthy content (a non-empty list)
is returned as a `card` response, otherwise the route falls back to the
`table` representation. -/
def cardBranchResponseType (df : PDataFrame) : String :=
  match formatCardResponse df with
  | some cards => if cards.isEmpty then "table" else "card"
  | none => "table"

/-- C9 counterexample: a 2-row, 1-column, non-numeric rowset — not 1×1
and without numeric columns — still yields metric cards (the first value
of each column), so the route answers `card`, not the claimed `table`
fallback. -/
theorem card_fallback_counterexample :
    (PDataFrame.mk 2 [⟨"name", false, [.str "alice", .str "bob"]⟩]).isEmptyDf = false ∧
    ¬((2 : Nat) = 1 ∧ (1 : Nat) = 1) ∧
    (PDataFrame.mk 2 [⟨"name", false, [.str "alice", .str "bob"]⟩]).cols.all
      (fun c => !c.numeric) = true ∧
    formatCardResponse (PDataFrame.mk 2 [⟨"name", false, [.str "alice", .str "bob"]⟩]) =
      some [⟨"name", "alice", none⟩] ∧
    cardBranchResponseType (PDataFrame.mk 2 [⟨"name", false, [.str "alice", .str "bob"]⟩]) =
      "card" := by
  refine ⟨by decide, by decide, by decide, ?_, ?_⟩ <;> decide

/-- C9 amended: the card formatter declines, and the route falls back to
the table representation, exactly when the rowset is empty; every
non-empty rowset yields a non-empty card list (for non-1×1 shapes, one
card per column up to 4, numeric columns summed and other columns showing
their first value). -/
theorem card_fallback_iff_empty (df : PDataFrame) :
    cardBranchResponseType df = (if df.isEmptyDf then "table" else "card") ∧
    (formatCardResponse df = none ↔ df.isEmptyDf = true) := by
  constructor
  · unfold cardBranchResponseType formatCardResponse
    by_cases he : df.isEmptyDf
    · simp [he]
    · simp only [he, if_false, Bool.false_eq_true]
      by_cases h11 : df.nrows = 1 && df.cols.length = 1
      · simp [h11]
      · simp only [h11, if_false]
        have hcols : df.cols ≠ [] := by
          intro hnil
          simp [PDataFrame.isEmptyDf, hnil] at he
        cases hc : df.cols with
        | nil => exact absurd hc hcols
        | cons c t => simp [hc]
  · unfold formatCardResponse
    by_cases he : df.isEmptyDf <;>
      by_cases h11 : df.nrows = 1 && df.cols.length = 1 <;> simp [he, h11]

/-- Witness for C9 (amended) at a concrete 1-row numeric rowset. -/
theorem card_fallback_iff_empty_witness :
    cardBranchResponseType (PDataFrame.mk 1 [⟨"total", true, [.num 5]⟩]) =
      (if (PDataFrame.mk 1 [⟨"total", true, [.num 5]⟩]).isEmptyDf then "table" else "card") ∧
    (formatCardResponse (PDataFrame.mk 1 [⟨"total", true, [.num 5]⟩]) = none ↔
      (PDataFrame.mk 1 [⟨"total", true, [.num 5]⟩]).isEmptyDf = true) :=
  card_fallback_iff_empty (PDataFrame.mk 1 [⟨"total", true, [.num 5]⟩])

/-! ## Prompt synthesizer
(`utils/database_manager.py`: `format_compact_schema` lines 422-448,
`generate_domain_specific_prompt` lines 450-478, and the `try`/`except`
fallback inside `generate_sql_token_optimized`, lines 526-550).
Schema entries come from dynamically-typed dicts, so each key a renderer
reads is an `Option` field; a missing (or `None`-valued, for the sliced
`type`) key raises, modelled as `Except.error` carrying the error name. -/

/-- A column dict as `format_compact_schema` reads it. -/
structure PyColumn where
  name : Option String
  type : Option String
  nullable : Option Bool
  primaryKey : Option Bool
deriving Repr, DecidableEq

/-- A foreign-key dict: `constrained_columns` (indexed at 0) and
`referred_table`. -/
structure PyForeignKey where
  constrainedColumns : List String
  referredTable : Option String
deriving Repr, DecidableEq

/-- A table-info dict: the two keys the compact renderer reads. -/
structure PyTableInfo where
  columns : Option (List PyColumn)
  foreignKeys : Option (List PyForeignKey)
deriving Repr, DecidableEq

/-- Python `d[k]`: `KeyError` when the key is absent. -/
def getKey {β : Type} (o : Option β) (k : String) : Except String β :=
  match o with
  | some v => .ok v
  | none => .error ("KeyError: " ++ k)

/-- Lines 429-435: render one column as `name(type[:10])` plus `*PK` /
`!NULL` suffixes. -/
def formatCompactColumn (col : PyColumn) : Except String String := do
  let n ← getKey col.name "name"
  let ty ← getKey col.type "type"
  let pk ← getKey col.primaryKey "primary_key"
  let nb ← getKey col.nullable "nullable"
  pure (n ++ "(" ++ pyTakeStr ty 10 ++ ")" ++ (if pk then "*PK" else "")
    ++ (if nb then "" else "!NULL"))

/-- Lines 438-440: render one foreign key as `col→target`. -/
def formatCompactFk (fk : PyForeignKey) : Except String String := do
  let c0 ← match fk.constrainedColumns.head? with
    | some c => Except.ok c
    | none => Except.error "IndexError: constrained_columns"
  let rt ← getKey fk.referredTable "referred_table"
  pure (c0 ++ "→" ++ rt)

/-- Lines 426-446: render one table as `name[cols]` with an optional
`FK:` suffix. -/
def formatCompactTable (entry : String × PyTableInfo) : Except String String := do
  let cols ← getKey entry.2.columns "columns"
  let colStrs ← cols.mapM formatCompactColumn
  let fks ← getKey entry.2.foreignKeys "foreign_keys"
  let fkStrs ← fks.mapM formatCompactFk
  let base := entry.1 ++ "[" ++ String.intercalate "," colStrs ++ "]"
  pure (if fkStrs.isEmpty then base else base ++ "FK:" ++ String.intercalate "," fkStrs)

/-- `format_compact_schema` (lines 422-448): all tables joined by
newlines; any malformed entry raises. -/
def formatCompactSchema (tables : List (String × PyTableInfo)) : Except String String := do
  let parts ← tables.mapM formatCompactTable
  pure (String.intercalate "\n" parts)

/-- `get_domain_prompt_context` (domain_analyzer.py lines 302-350):
context sentence and common patterns per domain. -/
def domainPromptContext (domain : String) : String × List String :=
  if domain = "hr" then
    ("This is an HR management system. Focus on employee, attendance, leave, and payroll data.",
     ["For attendance queries, join employees with attendance_records",
      "For leave queries, use leave_requests and leave_types",
      "Employee data is in employees table, personal info in persons"])
  else if domain = "inventory" then
    ("This is an inventory management system. Focus on products, sales, purchases, and stock.",
     ["For stock queries, use product_stock_levels",
      "For sales analysis, join sales with sales_items",
      "Product info is in products table with categories and brands"])
  else if domain = "financial" then
    ("This is a financial management system. Focus on accounts, transactions, and payments.",
     ["For payment queries, use payments and transactions tables",
      "Account balances are in accounts table",
      "Transaction categories help classify financial data"])
  else if domain = "reporting" then
    ("This is a reporting system. Focus on dashboards, charts, and analytics.",
     ["For report queries, use reports and report_types",
      "For dashboard data, join dashboard_tiles with charts"])
  else if domain = "general" then
    ("This is a general business system with core entities like customers, users, and parties.",
     ["For customer queries, use core_parties table with type=\x27CUSTOMER\x27",
      "For user queries, use core_users table",
      "For person queries, use core_persons table",
      "Core entities are linked through foreign key relationships"])
  else
    ("This is a general business system.", [])

/-- The tables fed to the compact renderer: `schema_info['tables']`
filtered to the relevant set (line 467). -/
def filterRelevant (tables : List (String × PyTableInfo)) (relevant : List String) :
    List (String × PyTableInfo) :=
  tables.filter (fun p => relevant.contains p.1)

/-- `generate_domain_specific_prompt` (lines 450-478): domain framing,
the compact schema of the relevant tables, the domain patterns and the
question; raises exactly when the compact rendering raises. -/
def generateDomainSpecificPrompt (question domain : String)
    (tables : List (String × PyTableInfo)) (relevant : List String) :
    Except String String :=
  let info := domainPromptContext domain
  match formatCompactSchema (filterRelevant tables relevant) with
  | .ok compact =>
    .ok ("You are an expert SQL analyst for a " ++ domain ++ " system.\n"
      ++ info.1
      ++ "\nIMPORTANT: Use ONLY the actual table names and column names from the schema below. Do NOT use placeholder names like \x27your_table_name\x27 or \x27table_name\x27.\n"
      ++ "Schema (compact format):\n" ++ compact
      ++ "\nCommon patterns for this domain:\n" ++ String.intercalate "\n" info.2
      ++ "\nQuestion: \"" ++ question ++ "\"\n"
      ++ "Use only the schema above. Output only the SQL query with actual table and column names.")
  | .error e => .error e

/-- Optional context appended after the domain prompt (lines 528-531). -/
def appendContexts (p : String) (conversationContext errorContext : Option String) : String :=
  (p ++ (match conversationContext with | some c => "\n" ++ c ++ "\n" | none => ""))
    ++ (match errorContext with
        | some e => "\nThe previously generated query failed with the error: \"" ++ e ++ "\".\n"
        | none => "")

/-- The prompt-building step of `generate_sql_token_optimized`
(lines 526-550): try the domain-specific prompt; on any exception fall
back to the simpler prompt of the `except` block — which re-invokes
`format_compact_schema` on the same filtered tables (lines 536-539), so
an exception raised there is raised again and leaves the function. -/
def buildSqlPrompt (question domain : String)
    (tables : List (String × PyTableInfo)) (relevant : List String)
    (conversationContext errorContext : Option String) : Except String String :=
  match generateDomainSpecificPrompt question domain tables relevant with
  | .ok p => .ok (appendContexts p conversationContext errorContext)
  | .error _ =>
    match formatCompactSchema (filterRelevant tables relevant) with
    | .ok compact =>
      .ok ("You are an expert SQL analyst.\nSchema (compact format):\n" ++ compact
        ++ (match conversationContext with | some c => "\n" ++ c ++ "\n" | none => "")
        ++ (match errorContext with
            | some e => "\nThe previously generated query failed with the error: \"" ++ e ++ "\".\n"
            | none => "")
        ++ "\nFor the following question: \"" ++ question
        ++ "\"\nUse only the schema above. Output only the SQL query.")
    | .error e => .error e

/-- C7 counterexample: a table entry without a `columns` key makes the
domain-specific rendering raise, the fallback re-raises the same error,
and the prompt-building step of SQL generation propagates it instead of
degrading to a simpler prompt. -/
theorem prompt_fallback_counterexample :
    buildSqlPrompt "show data" "general" [("t", ⟨none, none⟩)] ["t"] none none =
      .error "KeyError: columns" := by
  rfl

/-- C7 amended: the `except` fallback shields the prompt-building step
from every failure outside the compact-schema rendering, but the fallback
re-runs that same rendering, so the step raises exactly when
`format_compact_schema` raises on the relevant tables (and then the error
propagates out of SQL generation). -/
theorem prompt_fallback_amended (question domain : String)
    (tables : List (String × PyTableInfo)) (relevant : List String)
    (conversationContext errorContext : Option String) :
    (∀ c, formatCompactSchema (filterRelevant tables relevant) = .ok c →
      ∃ p, buildSqlPrompt question domain tables relevant conversationContext errorContext
        = .ok p) ∧
    (∀ e, buildSqlPrompt question domain tables relevant conversationContext errorContext
        = .error e ↔
      formatCompactSchema (filterRelevant tables relevant) = .error e) := by
  constructor
  · intro c hc
    unfold buildSqlPrompt generateDomainSpecificPrompt
    rw [hc]
    exact ⟨_, rfl⟩
  · intro e
    unfold buildSqlPrompt generateDomainSpecificPrompt
    cases hc : formatCompactSchema (filterRelevant tables relevant) with
    | ok c => simp
    | error e0 => simp

/-- Witness for C7 at a well-formed single-table schema: the compact
rendering succeeds and the step yields a prompt. -/
theorem prompt_fallback_amended_witness :
    formatCompactSchema (filterRelevant
        [("t", ⟨some [⟨some "id", some "INT", some false, some true⟩], some []⟩)] ["t"]) =
      .ok "t[id(INT)*PK!NULL]" ∧
    ∃ p, buildSqlPrompt "q" "hr"
        [("t", ⟨some [⟨some "id", some "INT", some false, some true⟩], some []⟩)] ["t"]
        none none = .ok p :=
  ⟨by rfl,
   (prompt_fallback_amended "q" "hr"
      [("t", ⟨some [⟨some "id", some "INT", some false, some true⟩], some []⟩)] ["t"]
      none none).1 "t[id(INT)*PK!NULL]" (by rfl)⟩

/-! ## Relevant-table resolver
(`utils/domain_analyzer.py`: `_build_indexes` lines 32-74,
`find_relevant_tables` lines 173-213, and the caller fallback in
`utils/database_manager.py`, `get_relevant_schema` lines 191-216).
The business-terms configuration is a parameter (it is loaded from a JSON
resource); the rapidfuzz `fuzz.ratio` collaborator is a parameter as
well — with no 3-letter words in the question the fuzzy pass never
consults it. -/

/-- Python `\w` word characters (ASCII range). -/
def isWordChar (c : Char) : Bool :=
  c.isAlphanum || c = '_'

/-- Maximal runs of characters satisfying `isWordChar`. -/
def wordRunsAux : List Char → List Char → List (List Char)
  | [], acc => if acc.isEmpty then [] else [acc.reverse]
  | c :: t, acc =>
    if isWordChar c then wordRunsAux t (c :: acc)
    else if acc.isEmpty then wordRunsAux t [] else acc.reverse :: wordRunsAux t []

/-- `re.findall(r"\w{3,}", s)`: words of at least three characters
(line 187). -/
def findWords (s : String) : List String :=
  ((wordRunsAux s.data []).filter (fun r => 3 ≤ r.length)).map (fun r => ⟨r⟩)

/-- Split a character list at every separator character, keeping empty
pieces, as `re.split` does. -/
def splitSepAux (sep : Char → Bool) : List Char → List Char → List (List Char)
  | [], acc => [acc.reverse]
  | c :: t, acc =>
    if sep c then acc.reverse :: splitSepAux sep t []
    else splitSepAux sep t (c :: acc)

/-- `re.split(r"[_\s]", s)` (lines 52 and 57). -/
def splitParts (s : String) : List String :=
  (splitSepAux (fun c => c = '_' || isPySpace c) s.data []).map (fun r => ⟨r⟩)

/-- Python `domain.split("_")` (line 196). -/
def splitUnderscore (s : String) : List String :=
  (splitSepAux (fun c => c = '_') s.data []).map (fun r => ⟨r⟩)

/-- A Python `defaultdict(set)` keyed by strings, holding table-name
sets, modelled as an insertion-ordered association list. -/
abbrev KeywordIndex : Type := List (String × List String)

/-- `self.keyword_index[k].add(v)`. -/
def kwAdd (idx : KeywordIndex) (k v : String) : KeywordIndex :=
  match idx with
  | [] => [(k, [v])]
  | (k0, vs) :: rest =>
    if k0 = k then (k0, if vs.contains v then vs else vs ++ [v]) :: rest
    else (k0, vs) :: kwAdd rest k v

/-- A sequence of `add` calls, in order. -/
def kwAddMany (idx : KeywordIndex) (kvs : List (String × String)) : KeywordIndex :=
  kvs.foldl (fun i kv => kwAdd i kv.1 kv.2) idx

/-- The keyword-index keys produced for one business term
`(table, business_name)` by the loop body of lines 50-70: name parts
longer than two characters, the full lowercased names, and the
singular/plural variant of the business name. -/
def keywordEntriesFor (tableName businessName : String) : List String :=
  ((splitParts (pyLower tableName)).filter
      (fun p => decide (p ≠ "") && decide (2 < p.length)))
    ++ ((splitParts (pyLower businessName)).filter
      (fun p => decide (p ≠ "") && decide (2 < p.length)))
    ++ [pyLower tableName, pyLower businessName]
    ++ [if endsWithStr (pyLower businessName) "s" then dropLastChar (pyLower businessName)
        else pyLower businessName ++ "s"]

/-- The `(key, table.lower())` add calls for one business term. -/
def keywordPairsFor (tableName businessName : String) : List (String × String) :=
  (keywordEntriesFor tableName businessName).map (fun k => (k, pyLower tableName))

/-- `_build_indexes` keyword-index construction (lines 48-74), including
the seeded `suppliers`/`supplier` → `core_parties` entries. -/
def buildKeywordIndex (terms : List (String × String)) : KeywordIndex :=
  kwAddMany (kwAddMany [] (terms.flatMap (fun p => keywordPairsFor p.1 p.2)))
    [("suppliers", "core_parties"), ("supplier", "core_parties")]

/-- `_build_indexes` domain-table construction (lines 42-46): each table
is classified by `_classify_domain` and added to that domain's set. -/
def buildDomainTables (terms : List (String × String)) : KeywordIndex :=
  kwAddMany [] (terms.map (fun p => (classifyTableDomain p.1, pyLower p.1)))

/-- Assignment into a Python dict (later writes overwrite). -/
def assocSet (m : List (String × String)) (k v : String) : List (String × String) :=
  match m with
  | [] => [(k, v)]
  | (k0, v0) :: rest =>
    if k0 = k then (k0, v) :: rest else (k0, v0) :: assocSet rest k v

/-- `self.reverse_table_map` (lines 36-40): business name → table name,
plus the seeded supplier entries. -/
def buildReverseTableMap (terms : List (String × String)) : List (String × String) :=
  assocSet (assocSet
      (terms.foldl (fun m p => assocSet m (pyLower p.2) (pyLower p.1)) [])
      "suppliers" "core_parties")
    "supplier" "core_parties"

/-- Dict lookup returning the mapped value when the key is present. -/
def lookupAssoc (m : List (String × String)) (k : String) : Option String :=
  (m.find? (fun p => p.1 = k)).map Prod.snd

/-- `find_relevant_tables` (lines 173-213): union of the exact substring
pass, the fuzzy pass over 3-letter-plus words (scored by the `ratio`
collaborator against the `threshold`, default 75), and the domain
expansion pass; matched names are mapped back through the reverse
business-term map (unmapped names kept as-is).  The result is a set; it
is returned as a deduplicated list. -/
def findRelevantTables (idx domTabs : KeywordIndex)
    (rev : List (String × String)) (ratio : String → String → Nat)
    (threshold : Nat) (question : String) : List String :=
  let ql := pyLower question
  let matched :=
    (idx.filter (fun p => containsSub ql p.1)).flatMap Prod.snd
    ++ (findWords ql).flatMap
        (fun w => (idx.filter (fun p => threshold ≤ ratio w p.1)).flatMap Prod.snd)
    ++ (domTabs.filter
        (fun d => (splitUnderscore d.1).any (fun dw => containsSub ql dw))).flatMap Prod.snd
  (matched.map (fun t =>
    match lookupAssoc rev t with
    | some orig => orig
    | none => t)).dedup

/-- The hard-coded caller fallback list of `get_relevant_schema`
(database_manager.py line 205). -/
def defaultCommonTables : List String :=
  ["employees", "products", "sales", "payments", "users", "accounts"]

/-- The table set `get_relevant_schema` proceeds with (lines 201-207):
the resolver result, or — when that is empty — the common tables filtered
to those present in the full schema. -/
def getRelevantSchemaTables (schemaTables : List String)
    (resolved : List String) : List String :=
  if resolved.isEmpty then defaultCommonTables.filter (fun t => schemaTables.contains t)
  else resolved

/-! ### Supporting lemmas for the resolver on a no-match question -/

/-- A string built from a non-empty character list is not the empty
string. -/
lemma strMk_ne_empty {l : List Char} (h : l ≠ []) : (⟨l⟩ : String) ≠ "" := by
  intro he
  exact h (by simpa using congrArg String.data he)

/-- The empty string contains no non-empty substring. -/
lemma containsSub_empty (p : String) (hp : p ≠ "") : containsSub "" p = false := by
  cases p with
  | mk data =>
    cases data with
    | nil => exact absurd rfl hp
    | cons c t => rfl

/-- Dropping the final character of a string of length at least two
leaves a non-empty string. -/
lemma dropLastChar_ne_empty (s : String) (h : 2 ≤ s.data.length) :
    dropLastChar s ≠ "" := by
  unfold dropLastChar
  apply strMk_ne_empty
  intro hnil
  rcases List.take_eq_nil_iff.mp hnil with h0 | h0
  · omega
  · rw [h0] at h
    simp at h

/-- A string distinct from `"s"` that ends in `s` has length at least
two. -/
lemma endsWith_s_length (b : String) (hbs : b ≠ "s")
    (h : endsWithStr b "s" = true) : 2 ≤ b.data.length := by
  unfold endsWithStr at h
  rw [List.isPrefixOf_iff_prefix] at h
  rcases h with ⟨u, hu⟩
  have hs : "s".data.reverse = ['s'] := rfl
  rw [hs] at hu
  have hrev : b.data.reverse = 's' :: u := by simpa using hu.symm
  cases u with
  | nil =>
    exfalso
    apply hbs
    have hd : b.data = ['s'] := by
      have := congrArg List.reverse hrev
      simpa using this
    cases b with
    | mk d => rw [show ("s" : String) = ⟨['s']⟩ from rfl, ← hd]
  | cons c tl =>
    have hlen := congrArg List.length hrev
    rw [List.length_reverse] at hlen
    simp only [List.length_cons] at hlen
    omega

/-- Every key generated for a business term is non-empty, provided the
term's names are non-empty and the business name is not the bare `"s"`. -/
lemma keywordEntriesFor_ne_empty (t b : String) (ht : pyLower t ≠ "")
    (hb : pyLower b ≠ "") (hbs : pyLower b ≠ "s") :
    ∀ k ∈ keywordEntriesFor t b, k ≠ "" := by
  intro k hk
  unfold keywordEntriesFor at hk
  simp only [List.mem_append, List.mem_filter, List.mem_cons,
    List.not_mem_nil, or_false, Bool.and_eq_true, decide_eq_true_eq] at hk
  rcases hk with ((⟨-, hne, -⟩ | ⟨-, hne, -⟩) | hk | hk) | hk
  · exact hne
  · exact hne
  · exact hk ▸ ht
  · exact hk ▸ hb
  · subst hk
    by_cases hes : endsWithStr (pyLower b) "s" = true
    · simp only [hes, if_true]
      exact dropLastChar_ne_empty _ (endsWith_s_length _ hbs hes)
    · simp only [hes, Bool.false_eq_true, if_false]
      intro he
      have hdata := congrArg String.data he
      have happ : (pyLower b ++ "s").data = (pyLower b).data ++ ['s'] := rfl
      rw [happ] at hdata
      simp at hdata

/-- `kwAdd` either leaves the key list unchanged or appends the added
key. -/
lemma kwAdd_keys (idx : KeywordIndex) (k v : String) :
    (kwAdd idx k v).map Prod.fst = idx.map Prod.fst ∨
    (kwAdd idx k v).map Prod.fst = idx.map Prod.fst ++ [k] := by
  induction idx with
  | nil => right; rfl
  | cons p rest ih =>
    cases p with
    | mk p1 p2 =>
      by_cases hpk : p1 = k
      · left
        simp [kwAdd, hpk]
      · rcases ih with h | h
        · left
          simp [kwAdd, hpk, h]
        · right
          simp [kwAdd, hpk, h]

/-- Membership form of `kwAdd_keys`. -/
lemma kwAdd_keys_mem (idx : KeywordIndex) (k v : String) :
    ∀ k0 ∈ (kwAdd idx k v).map Prod.fst, k0 ∈ idx.map Prod.fst ∨ k0 = k := by
  intro k0 h
  rcases kwAdd_keys idx k v with he | he <;> rw [he] at h
  · exact Or.inl h
  · rcases List.mem_append.mp h with h | h
    · exact Or.inl h
    · exact Or.inr (by simpa using h)

/-- `kwAddMany` introduces no key outside the added pairs. -/
lemma kwAddMany_keys (kvs : List (String × String)) :
    ∀ idx : KeywordIndex, ∀ k0 ∈ (kwAddMany idx kvs).map Prod.fst,
      k0 ∈ idx.map Prod.fst ∨ k0 ∈ kvs.map Prod.fst := by
  induction kvs with
  | nil => intro idx k0 h; exact Or.inl h
  | cons kv rest ih =>
    intro idx k0 h
    have step := ih (kwAdd idx kv.1 kv.2) k0 h
    rcases step with hin | hin
    · rcases kwAdd_keys_mem idx kv.1 kv.2 k0 hin with hin2 | hk
      · exact Or.inl hin2
      · exact Or.inr (by simp [hk])
    · exact Or.inr (List.mem_cons_of_mem _ hin)

/-- With non-degenerate business terms, every key of the built keyword
index is non-empty. -/
lemma buildKeywordIndex_keys_ne_empty (terms : List (String × String))
    (h : ∀ p ∈ terms, pyLower p.1 ≠ "" ∧ pyLower p.2 ≠ "" ∧ pyLower p.2 ≠ "s") :
    ∀ k ∈ (buildKeywordIndex terms).map Prod.fst, k ≠ "" := by
  intro k hk
  unfold buildKeywordIndex at hk
  rcases kwAddMany_keys _ _ k hk with hk | hk
  · rcases kwAddMany_keys _ _ k hk with hk | hk
    · simp at hk
    · rcases List.mem_map.mp hk with ⟨kv, hkv, rfl⟩
      rcases List.mem_flatMap.mp hkv with ⟨p, hp, hkvp⟩
      unfold keywordPairsFor at hkvp
      rcases List.mem_map.mp hkvp with ⟨k0, hk0, rfl⟩
      exact keywordEntriesFor_ne_empty p.1 p.2 (h p hp).1 (h p hp).2.1 (h p hp).2.2 k0 hk0
  · simp only [List.map_cons, List.map_nil, List.mem_cons, List.not_mem_nil, or_false] at hk
    rcases hk with hk | hk <;> subst hk <;> decide

/-- Every key of the built domain-table index is a table-domain tag. -/
lemma buildDomainTables_keys (terms : List (String × String)) :
    ∀ k ∈ (buildDomainTables terms).map Prod.fst,
      k ∈ ["hr", "inventory", "financial", "reporting", "core"] := by
  intro k hk
  unfold buildDomainTables at hk
  rcases kwAddMany_keys _ _ k hk with hk | hk
  · simp at hk
  · rcases List.mem_map.mp hk with ⟨kv, hkv, rfl⟩
    rcases List.mem_map.mp hkv with ⟨p, hp, rfl⟩
    exact classifyTableDomain_mem p.1

/-! ### Theorems for C5 -/

/-- C5 counterexample: the resolver does return the empty set on the
empty question, but the caller-level fallback of `get_relevant_schema`
substitutes the default candidates filtered to the schema — for a schema
holding none of the six candidates (here only `core_parties`) that
substituted set is empty, not the claimed non-empty default set. -/
theorem resolver_fallback_counterexample :
    findRelevantTables (buildKeywordIndex [("core_parties", "customers")])
      (buildDomainTables [("core_parties", "customers")])
      (buildReverseTableMap [("core_parties", "customers")])
      (fun _ _ => 0) 75 "" = [] ∧
    getRelevantSchemaTables ["core_parties"] [] = [] := by
  exact ⟨by decide, by decide⟩

/-- C5 amended: for every business-terms configuration with non-empty
names (and no bare `"s"` business name), the resolver applied to the
empty question fires no keyword, fuzzy or domain match — for any
similarity collaborator — and returns the empty set (the embedding is
total, so nothing is raised); the caller fallback then substitutes the
fixed candidate list filtered to tables present in the schema, which is
non-empty exactly when the schema holds at least one candidate (e.g.
`products`). -/
theorem resolver_empty_question_and_fallback :
    (∀ (terms : List (String × String)) (ratio : String → String → Nat)
        (threshold : Nat),
      (∀ p ∈ terms, pyLower p.1 ≠ "" ∧ pyLower p.2 ≠ "" ∧ pyLower p.2 ≠ "s") →
      findRelevantTables (buildKeywordIndex terms) (buildDomainTables terms)
        (buildReverseTableMap terms) ratio threshold "" = []) ∧
    (∀ (schemaTables resolved : List String), resolved = [] →
      getRelevantSchemaTables schemaTables resolved
        = defaultCommonTables.filter (fun t => schemaTables.contains t)) ∧
    (∀ schemaTables : List String, "products" ∈ schemaTables →
      getRelevantSchemaTables schemaTables [] ≠ []) := by
  refine ⟨?_, ?_, ?_⟩
  · intro terms ratio threshold hterms
    have hql : pyLower "" = "" := rfl
    have h1 : (buildKeywordIndex terms).filter
        (fun p => containsSub (pyLower "") p.1) = [] := by
      rw [List.filter_eq_nil_iff]
      intro p hp
      have hne : p.1 ≠ "" :=
        buildKeywordIndex_keys_ne_empty terms hterms p.1 (List.mem_map.mpr ⟨p, hp, rfl⟩)
      simp [hql, containsSub_empty _ hne]
    have h2 : findWords (pyLower "") = [] := rfl
    have htags : ∀ tag ∈ ["hr", "inventory", "financial", "reporting", "core"],
        ((splitUnderscore tag).any (fun dw => containsSub "" dw)) = false := by decide
    have h3 : (buildDomainTables terms).filter
        (fun d => (splitUnderscore d.1).any (fun dw => containsSub (pyLower "") dw)) = [] := by
      rw [List.filter_eq_nil_iff]
      intro d hd
      have hmem := buildDomainTables_keys terms d.1 (List.mem_map.mpr ⟨d, hd, rfl⟩)
      simp [hql, htags d.1 hmem]
    unfold findRelevantTables
    dsimp only
    rw [h1, h2, h3]
    simp
  · intro schemaTables resolved hres
    subst hres
    rfl
  · intro schemaTables hmem
    unfold getRelevantSchemaTables
    simp only [List.isEmpty_nil, if_true]
    apply List.ne_nil_of_mem (a := "products")
    refine List.mem_filter.mpr ⟨by decide, ?_⟩
    simpa using hmem

/-- Witness for C5 (amended) at the one-term configuration
`core_parties → customers` and a schema containing `products`. -/
theorem resolver_empty_question_and_fallback_witness :
    findRelevantTables (buildKeywordIndex [("core_parties", "customers")])
      (buildDomainTables [("core_parties", "customers")])
      (buildReverseTableMap [("core_parties", "customers")])
      (fun _ _ => 100) 75 "" = [] ∧
    getRelevantSchemaTables ["products", "core_parties"] [] ≠ [] :=
  ⟨resolver_empty_question_and_fallback.1 [("core_parties", "customers")]
      (fun _ _ => 100) 75 (by decide),
   resolver_empty_question_and_fallback.2.2 ["products", "core_parties"] (by decide)⟩

end DBChat
